import Mathlib

/-!
Shallow embedding of the secrets-lookup module of replicatedhq/daggerverse
(src/onepassword/main.go): vault/item/section/field resolution, the rotation-spec
extractor and the put-secret flow, together with theorems settling the behavioural
claims about them.

Provider iteration is modelled as the finite sequence of elements the iterator
yields followed by a terminal signal: done (`none`) or an iterator error.  Go
`panic` exits (credential decoding, client construction) and the nil-pointer
dereference in the rotation scan are modelled as a distinct `fault` outcome,
separate from returned `error` values.
-/

namespace Daggerverse

/-- Overview of a vault as yielded by the provider's vault iterator
(onepassword.VaultOverview): opaque identifier and display title. -/
structure VaultOverview where
  id : String
  title : String
  deriving DecidableEq, Repr

/-- Overview of an item as yielded by the provider's item iterator
(onepassword.ItemOverview). -/
structure ItemOverview where
  id : String
  title : String
  deriving DecidableEq, Repr

/-- A section of a fully loaded item (onepassword.ItemSection). -/
structure ItemSection where
  id : String
  title : String
  deriving DecidableEq, Repr

/-- A field of a fully loaded item (onepassword.ItemField): the Go SectionID is a
possibly-nil pointer, modelled as an Option. -/
structure ItemField where
  title : String
  value : String
  sectionID : Option String
  deriving DecidableEq, Repr

/-- A fully loaded item (onepassword.Item) as returned by client.Items.Get. -/
structure Item where
  id : String
  title : String
  sections : List ItemSection
  fields : List ItemField
  deriving DecidableEq, Repr

/-- The Go zero value of onepassword.Item: what `item` holds after
`item, err := client.Items.Get(...)` fails (main.go:78, 136), since the SDK returns
the zero Item together with the error. -/
def goZeroItem : Item := ⟨"", "", [], []⟩

/-- A provider iterator, observed extensionally: the elements its Next calls yield in
order, then a terminal signal — `none` for the done sentinel (ErrorIteratorDone) or
`some e` for an iterator error. -/
structure IterStream (α : Type) where
  elems : List α
  term : Option String
  deriving DecidableEq, Repr

/-- The error values the module returns: the five sentinel errors declared at
main.go:16-20 plus pass-through provider errors. -/
inductive OPError where
  | vaultNotFound
  | itemNotFound
  | fieldNotFound
  | sectionNotFound
  | rotationSpecNotFound
  | provider (msg : String)
  deriving DecidableEq, Repr

/-- The abort exits of the module: `panic(err)` on a credential that cannot be read as
plaintext (main.go:57, 114, 202), `panic(err)` on client construction failure
(main.go:65, 121, 210), and the nil-pointer dereference `*field.SectionID` in the
rotation scan (main.go:149). -/
inductive FaultKind where
  | credentialDecode
  | clientConstruct
  | nilSectionRef
  deriving DecidableEq, Repr

/-- Outcome of a Go function that can return a value, return an error, or abort. -/
inductive GoResult (α : Type) where
  | ok (a : α)
  | error (e : OPError)
  | fault (k : FaultKind)
  deriving DecidableEq, Repr

/-- The opaque secret handle produced by dagger.Connect().SetSecret(name, value). -/
structure DSecret where
  name : String
  value : String
  deriving DecidableEq, Repr

/-- onepassword.ItemCreateParams as far as PutSecret populates it (main.go:222-224):
only Title is set, so VaultID keeps Go's zero value, the empty string. -/
structure ItemCreateParams where
  vaultID : String
  title : String
  deriving DecidableEq, Repr

/-- The retrieval loop of findVault (main.go:247-260): Next yields the listed elements
in order; an element whose title equals the target returns at once; the done sentinel
becomes ErrVaultNotFound; any other iterator error is returned as is. -/
def findVaultLoop (vaultName : String) : List VaultOverview → Option String → Except OPError VaultOverview
  | [], none => .error .vaultNotFound
  | [], some e => .error (.provider e)
  | v :: rest, t => if v.title == vaultName then .ok v else findVaultLoop vaultName rest t

/-- findVault (main.go:241-261): client.Vaults.ListAll may itself fail, otherwise the
retrieval loop runs over the iterator. -/
def findVault (vaults : Except String (IterStream VaultOverview)) (vaultName : String) :
    Except OPError VaultOverview :=
  match vaults with
  | .error e => .error (.provider e)
  | .ok st => findVaultLoop vaultName st.elems st.term

/-- The retrieval loop of findItem (main.go:269-282). -/
def findItemLoop (itemName : String) : List ItemOverview → Option String → Except OPError ItemOverview
  | [], none => .error .itemNotFound
  | [], some e => .error (.provider e)
  | i :: rest, t => if i.title == itemName then .ok i else findItemLoop itemName rest t

/-- findItem (main.go:263-283): client.Items.ListAll may itself fail, otherwise the
retrieval loop runs over the iterator. -/
def findItem (items : Except String (IterStream ItemOverview)) (itemName : String) :
    Except OPError ItemOverview :=
  match items with
  | .error e => .error (.provider e)
  | .ok st => findItemLoop itemName st.elems st.term

/-- The loop of findSectionID (main.go:291-296). -/
def findSectionIDLoop (sectionName : String) : List ItemSection → Except OPError String
  | [] => .error .sectionNotFound
  | s :: rest => if s.title == sectionName then .ok s.id else findSectionIDLoop sectionName rest

/-- findSectionID (main.go:286-297): the empty requested title short-circuits to the
empty identifier with no error; otherwise the first exact, case-sensitive title match
among the item's sections yields its id, and exhaustion yields ErrSectionNotFound. -/
def findSectionID (item : Item) (sectionName : String) : Except OPError String :=
  if sectionName == "" then .ok ""
  else findSectionIDLoop sectionName item.sections

/-- The field loop of FindSecret (main.go:85-91): a field is examined when the section
argument is empty or the field's SectionID pointer is non-nil and points at the
resolved identifier; the first examined field with the target title returns its
value. -/
def findFieldValue (sectionName sectionID fieldName : String) : List ItemField → Option String
  | [] => none
  | f :: rest =>
    if (sectionName == "" || f.sectionID == some sectionID) && f.title == fieldName
    then some f.value
    else findFieldValue sectionName sectionID fieldName rest

/-- The provider world a single exported operation runs against: the credential's
plaintext decoding, client construction, the two list iterators, the full-item load
and item creation, each an independent fallible provider call. -/
structure Env where
  plaintext : Except String String
  newClient : Except String Unit
  vaultsList : Except String (IterStream VaultOverview)
  itemsList : String → Except String (IterStream ItemOverview)
  getItem : String → String → Except String Item
  createItem : ItemCreateParams → Except String ItemOverview

/-- FindSecret (main.go:36-94).  Plaintext and client-construction failures panic; the
vault and item resolvers' errors return; the error of client.Items.Get at line 78 is
DISCARDED — `err` is reassigned at line 80 without being checked, so on failure
resolution continues on the zero-value item. -/
def FindSecret (env : Env) (vaultName itemName fieldName sectionName : String) :
    GoResult DSecret :=
  match env.plaintext with
  | .error _ => .fault .credentialDecode
  | .ok _ =>
    match env.newClient with
    | .error _ => .fault .clientConstruct
    | .ok _ =>
      match findVault env.vaultsList vaultName with
      | .error e => .error e
      | .ok vault =>
        match findItem (env.itemsList vault.id) itemName with
        | .error e => .error e
        | .ok itemOverview =>
          let item := match env.getItem vault.id itemOverview.id with
            | .ok it => it
            | .error _ => goZeroItem
          match findSectionID item sectionName with
          | .error e => .error e
          | .ok sectionID =>
            match findFieldValue sectionName sectionID fieldName item.fields with
            | some v => .ok ⟨fieldName, v⟩
            | none => .error .fieldNotFound

/-- SecretRotationSpecs (main.go:26-33): the three attributes, all opaque strings. -/
structure SecretRotationSpecs where
  ExpiresOn : String
  CreatedOn : String
  RotationFunction : String
  deriving DecidableEq, Repr

/-- The switch of the rotation scan (main.go:150-157): stores the field's value into
the attribute named by its title, leaving the accumulator unchanged for any other
title. -/
def rotStep (acc : SecretRotationSpecs) (f : ItemField) : SecretRotationSpecs :=
  if f.title == "expires-on" then { acc with ExpiresOn := f.value }
  else if f.title == "created-on" then { acc with CreatedOn := f.value }
  else if f.title == "rotationFunction" then { acc with RotationFunction := f.value }
  else acc

/-- The break condition of the rotation scan (main.go:160): all three attributes set. -/
def rotComplete (acc : SecretRotationSpecs) : Bool :=
  acc.ExpiresOn != "" && acc.CreatedOn != "" && acc.RotationFunction != ""

/-- The rotation scan loop (main.go:148-163): each iteration dereferences
field.SectionID with no nil guard — a nil reference faults; a field inside the section
is folded through the switch; after every iteration the loop breaks once all three
attributes are set. -/
def rotScan (sectionID : String) (acc : SecretRotationSpecs) : List ItemField → GoResult SecretRotationSpecs
  | [] => .ok acc
  | f :: rest =>
    match f.sectionID with
    | none => .fault .nilSectionRef
    | some s =>
      let acc' := if s == sectionID then rotStep acc f else acc
      if rotComplete acc' then .ok acc' else rotScan sectionID acc' rest

/-- Lower-case hex digit, as used by encoding/json's \u00XX escapes. -/
def hexDigit (n : Nat) : Char :=
  if n < 10 then Char.ofNat (48 + n) else Char.ofNat (87 + n)

/-- The escaping encoding/json applies to one character of a string value with the
default HTML escaping of json.Marshal. -/
def jsonEscapeChar (c : Char) : String :=
  if c = '"' then "\\\""
  else if c = '\\' then "\\\\"
  else if c = '\n' then "\\n"
  else if c = '\r' then "\\r"
  else if c = '\t' then "\\t"
  else if c.toNat < 32 then "\\u00" ++ String.mk [hexDigit (c.toNat / 16), hexDigit (c.toNat % 16)]
  else if c = '<' then "\\u003c"
  else if c = '>' then "\\u003e"
  else if c = '&' then "\\u0026"
  else if c.toNat = 0x2028 then "\\u2028"
  else if c.toNat = 0x2029 then "\\u2029"
  else String.mk [c]

/-- A JSON string literal for s, in encoding/json's rendering. -/
def jsonQuote (s : String) : String :=
  "\"" ++ String.join (s.data.map jsonEscapeChar) ++ "\""

/-- json.Marshal of SecretRotationSpecs (main.go:171): exported field names as keys in
declaration order.  Marshalling a struct of three strings cannot fail, so it is total
here. -/
def marshalRotationSpecs (r : SecretRotationSpecs) : String :=
  "\x7b\"ExpiresOn\":" ++ jsonQuote r.ExpiresOn
    ++ ",\"CreatedOn\":" ++ jsonQuote r.CreatedOn
    ++ ",\"RotationFunction\":" ++ jsonQuote r.RotationFunction ++ "\x7d"

/-- Section resolution, rotation field scan, completeness check and serialization of
FindSecretRotationSpecs (main.go:140-177) on an already loaded item: the part of the
flow that is a pure function of the item snapshot and section name. -/
def rotationExtract (item : Item) (sectionName : String) : GoResult DSecret :=
  match findSectionID item sectionName with
  | .error e => .error e
  | .ok sectionID =>
    match rotScan sectionID ⟨"", "", ""⟩ item.fields with
    | .fault k => .fault k
    | .error e => .error e
    | .ok ri =>
      if ri.ExpiresOn == "" || ri.CreatedOn == "" || ri.RotationFunction == ""
      then .error .rotationSpecNotFound
      else .ok ⟨"rotationSpecs", marshalRotationSpecs ri⟩

/-- FindSecretRotationSpecs (main.go:97-179).  Same plumbing as FindSecret — including
the discarded client.Items.Get error at line 136 — followed by the extraction. -/
def FindSecretRotationSpecs (env : Env) (vaultName itemName sectionName : String) :
    GoResult DSecret :=
  match env.plaintext with
  | .error _ => .fault .credentialDecode
  | .ok _ =>
    match env.newClient with
    | .error _ => .fault .clientConstruct
    | .ok _ =>
      match findVault env.vaultsList vaultName with
      | .error e => .error e
      | .ok vault =>
        match findItem (env.itemsList vault.id) itemName with
        | .error e => .error e
        | .ok itemOverview =>
          let item := match env.getItem vault.id itemOverview.id with
            | .ok it => it
            | .error _ => goZeroItem
          rotationExtract item sectionName

/-- PutSecret (main.go:182-239).  After vault resolution: a successful item lookup just
logs and returns nil; ErrItemNotFound triggers client.Items.Create with params carrying
only the title (the create's returned handle is discarded); any other lookup error
returns.  The second component records the create requests issued, so that the shape of
the params PutSecret sends to the provider is observable. -/
def PutSecret (env : Env) (vaultName itemName fieldName value : String) :
    GoResult Unit × List ItemCreateParams :=
  match env.plaintext with
  | .error _ => (.fault .credentialDecode, [])
  | .ok _ =>
    match env.newClient with
    | .error _ => (.fault .clientConstruct, [])
    | .ok _ =>
      match findVault env.vaultsList vaultName with
      | .error e => (.error e, [])
      | .ok vault =>
        match findItem (env.itemsList vault.id) itemName with
        | .ok _ => (.ok (), [])
        | .error .itemNotFound =>
          match env.createItem ⟨"", itemName⟩ with
          | .error e => (.error (.provider e), [⟨"", itemName⟩])
          | .ok _ => (.ok (), [⟨"", itemName⟩])
        | .error e => (.error e, [])

/-- Fields of l lying in section sectionID and bearing title t, in order. -/
def occ (sectionID t : String) (l : List ItemField) : List ItemField :=
  l.filter (fun f => decide (f.sectionID = some sectionID ∧ f.title = t))

/-- One component of the rotation-scan invariant: the accumulator component read by g
either already holds the designated value v with no matching section field left in l,
or is still empty while exactly one matching section field carrying v lies ahead. -/
def RotInv (sectionID t v : String) (g : SecretRotationSpecs → String)
    (acc : SecretRotationSpecs) (l : List ItemField) : Prop :=
  (g acc = v ∧ occ sectionID t l = []) ∨
  (g acc = "" ∧ ∃ f, occ sectionID t l = [f] ∧ f.value = v)

/-- A concrete item: two sections, a section-scoped password in each of two sections,
and a complete rotation section. -/
def itemA : Item :=
  ⟨"i1", "db-creds",
   [⟨"s1", "staging"⟩, ⟨"s2", "rotation"⟩],
   [⟨"password", "xyz", some "s1"⟩,
    ⟨"password", "topsecret", some "s2"⟩,
    ⟨"expires-on", "2025-01-01", some "s2"⟩,
    ⟨"created-on", "2024-01-01", some "s2"⟩,
    ⟨"rotationFunction", "rotateDbPassword", some "s2"⟩]⟩

/-- A concrete item whose rotation section lacks the expires-on field. -/
def itemB : Item :=
  ⟨"i1", "db-creds",
   [⟨"s2", "rotation"⟩],
   [⟨"created-on", "2024-01-01", some "s2"⟩,
    ⟨"rotationFunction", "rotateDbPassword", some "s2"⟩]⟩

/-- A healthy provider world holding vault "prod" with item itemA. -/
def envA : Env :=
  ⟨.ok "token", .ok (),
   .ok ⟨[⟨"v1", "prod"⟩], none⟩,
   fun vid => if vid == "v1" then .ok ⟨[⟨"i1", "db-creds"⟩], none⟩ else .ok ⟨[], none⟩,
   fun _ _ => .ok itemA,
   fun _ => .ok ⟨"i2", "created"⟩⟩

/-- Like envA but the loaded item is itemB (incomplete rotation section). -/
def envB : Env :=
  ⟨.ok "token", .ok (),
   .ok ⟨[⟨"v1", "prod"⟩], none⟩,
   fun vid => if vid == "v1" then .ok ⟨[⟨"i1", "db-creds"⟩], none⟩ else .ok ⟨[], none⟩,
   fun _ _ => .ok itemB,
   fun _ => .ok ⟨"i2", "created"⟩⟩

/-- A provider world in which the full-item load fails with a transport error while
everything before it succeeds. -/
def envC7 : Env :=
  ⟨.ok "token", .ok (),
   .ok ⟨[⟨"v1", "prod"⟩], none⟩,
   fun _ => .ok ⟨[⟨"i1", "db-creds"⟩], none⟩,
   fun _ _ => .error "transport: connection reset",
   fun _ => .ok ⟨"i2", "x"⟩⟩

/-- A provider world holding vault "prod" (id "v1") and no items, where item creation
succeeds. -/
def envC8 : Env :=
  ⟨.ok "token", .ok (),
   .ok ⟨[⟨"v1", "prod"⟩], none⟩,
   fun _ => .ok ⟨[], none⟩,
   fun _ _ => .error "no such item",
   fun _ => .ok ⟨"i9", "new-item"⟩⟩

/-- A provider world whose credential cannot be decoded to plaintext. -/
def envBadCred : Env :=
  ⟨.error "cannot read secret plaintext", .ok (),
   .ok ⟨[], none⟩, fun _ => .ok ⟨[], none⟩,
   fun _ _ => .error "x", fun _ => .error "x"⟩

/-- A provider world whose credential decodes fine but whose client construction
fails. -/
def envBadClient : Env :=
  ⟨.ok "token", .error "invalid service account token",
   .ok ⟨[], none⟩, fun _ => .ok ⟨[], none⟩,
   fun _ _ => .error "x", fun _ => .error "x"⟩

section ResolverLemmas

/-- The vault retrieval loop returns exactly the head of the title-filtered list, and
on exhaustion turns the terminal signal into ErrVaultNotFound or the provider error. -/
theorem findVaultLoop_eq_filter (vaultName : String) (l : List VaultOverview) (t : Option String) :
    findVaultLoop vaultName l t =
      match (l.filter (fun v => v.title == vaultName)).head? with
      | some v => .ok v
      | none =>
        match t with
        | none => .error .vaultNotFound
        | some e => .error (.provider e) := by
  induction l with
  | nil => cases t <;> rfl
  | cons v rest ih =>
    simp only [findVaultLoop, List.filter_cons]
    cases h : v.title == vaultName with
    | true => simp [h]
    | false => simp [h, ih]

/-- The item retrieval loop returns exactly the head of the title-filtered list, and
on exhaustion turns the terminal signal into ErrItemNotFound or the provider error. -/
theorem findItemLoop_eq_filter (itemName : String) (l : List ItemOverview) (t : Option String) :
    findItemLoop itemName l t =
      match (l.filter (fun i => i.title == itemName)).head? with
      | some i => .ok i
      | none =>
        match t with
        | none => .error .itemNotFound
        | some e => .error (.provider e) := by
  induction l with
  | nil => cases t <;> rfl
  | cons i rest ih =>
    simp only [findItemLoop, List.filter_cons]
    cases h : i.title == itemName with
    | true => simp [h]
    | false => simp [h, ih]

/-- The field loop of FindSecret returns the value of the head of the
candidate-and-title-filtered field list. -/
theorem findFieldValue_eq_filter (sectionName sectionID fieldName : String) (l : List ItemField) :
    findFieldValue sectionName sectionID fieldName l =
      ((l.filter (fun f =>
          (sectionName == "" || f.sectionID == some sectionID) && f.title == fieldName)).head?).map
        (fun f => f.value) := by
  induction l with
  | nil => rfl
  | cons f rest ih =>
    simp only [findFieldValue, List.filter_cons]
    cases h : (sectionName == "" || f.sectionID == some sectionID) && f.title == fieldName with
    | true => simp [h]
    | false => simp [h, ih]

/-- The section loop returns the id of the head of the title-filtered section list. -/
theorem findSectionIDLoop_eq_filter (sectionName : String) (l : List ItemSection) :
    findSectionIDLoop sectionName l =
      match (l.filter (fun s => s.title == sectionName)).head? with
      | some s => .ok s.id
      | none => .error .sectionNotFound := by
  induction l with
  | nil => rfl
  | cons s rest ih =>
    simp only [findSectionIDLoop, List.filter_cons]
    cases h : s.title == sectionName with
    | true => simp [h]
    | false => simp [h, ih]

end ResolverLemmas

/-- Claim C1: over any finite sequence of vaults yielded by the provider's iteration,
findVault returns the first vault (in iteration order) whose title equals the target
exactly, and returns ErrVaultNotFound when the iteration is exhausted by the done
signal without a match; findItem satisfies the same contract over a vault's item
sequence with ErrItemNotFound — never a partial or placeholder result. -/
theorem c1_resolvers_first_match :
    ∀ (vaults : List VaultOverview) (items : List ItemOverview) (t : Option String)
      (name : String),
    (∀ v, (vaults.filter (fun v => v.title == name)).head? = some v →
      findVault (.ok ⟨vaults, t⟩) name = .ok v) ∧
    ((vaults.filter (fun v => v.title == name)).head? = none →
      findVault (.ok ⟨vaults, none⟩) name = .error .vaultNotFound) ∧
    (∀ i, (items.filter (fun i => i.title == name)).head? = some i →
      findItem (.ok ⟨items, t⟩) name = .ok i) ∧
    ((items.filter (fun i => i.title == name)).head? = none →
      findItem (.ok ⟨items, none⟩) name = .error .itemNotFound) := by
  intro vaults items t name
  refine ⟨fun v hv => ?_, fun hv => ?_, fun i hi => ?_, fun hi => ?_⟩
  · show findVaultLoop name vaults t = .ok v
    rw [findVaultLoop_eq_filter, hv]
  · show findVaultLoop name vaults none = .error .vaultNotFound
    rw [findVaultLoop_eq_filter, hv]
  · show findItemLoop name items t = .ok i
    rw [findItemLoop_eq_filter, hi]
  · show findItemLoop name items none = .error .itemNotFound
    rw [findItemLoop_eq_filter, hi]

/-- Witness for C1 at concrete inputs: the second of two equally titled vaults is never
returned, the first is; exhaustion yields the sentinel errors. -/
theorem c1_resolvers_first_match_witness :
    findVault (.ok ⟨[⟨"v1", "dev"⟩, ⟨"v2", "prod"⟩, ⟨"v3", "prod"⟩], none⟩) "prod" =
      .ok ⟨"v2", "prod"⟩ ∧
    findVault (.ok ⟨[⟨"v1", "dev"⟩], none⟩) "prod" = .error .vaultNotFound ∧
    findItem (.ok ⟨[⟨"i1", "db-creds"⟩], none⟩) "db-creds" = .ok ⟨"i1", "db-creds"⟩ ∧
    findItem (.ok ⟨[], none⟩) "db-creds" = .error .itemNotFound :=
  ⟨(c1_resolvers_first_match [⟨"v1", "dev"⟩, ⟨"v2", "prod"⟩, ⟨"v3", "prod"⟩] [] none "prod").1
      ⟨"v2", "prod"⟩ (by decide),
   (c1_resolvers_first_match [⟨"v1", "dev"⟩] [] none "prod").2.1 (by decide),
   (c1_resolvers_first_match [] [⟨"i1", "db-creds"⟩] none "db-creds").2.2.1
      ⟨"i1", "db-creds"⟩ (by decide),
   (c1_resolvers_first_match [] [] none "db-creds").2.2.2 (by decide)⟩

/-- Claim C2: on a fully loaded item with resolved section identifier, FindSecret's
field extractor scans the fields in order; a field is a candidate iff the requested
section title is empty (filter inactive) or the field carries a non-nil section
reference equal to the resolved identifier; the result is the value of the first
candidate whose title equals the target exactly, wrapped as a secret handle, and
ErrFieldNotFound when no candidate has the target title. -/
theorem c2_field_extractor (env : Env) (pt : String) (vault : VaultOverview)
    (itemOverview : ItemOverview) (item : Item) (sectionID : String)
    (vaultName itemName fieldName sectionName : String)
    (h1 : env.plaintext = .ok pt) (h2 : env.newClient = .ok ())
    (h3 : findVault env.vaultsList vaultName = .ok vault)
    (h4 : findItem (env.itemsList vault.id) itemName = .ok itemOverview)
    (h5 : env.getItem vault.id itemOverview.id = .ok item)
    (h6 : findSectionID item sectionName = .ok sectionID) :
    FindSecret env vaultName itemName fieldName sectionName =
      match (item.fields.filter (fun f =>
          (sectionName == "" || f.sectionID == some sectionID) && f.title == fieldName)).head? with
      | some f => .ok ⟨fieldName, f.value⟩
      | none => .error .fieldNotFound := by
  simp only [FindSecret, h1, h2, h3, h4, h5, h6, findFieldValue_eq_filter]
  cases (item.fields.filter (fun f =>
      (sectionName == "" || f.sectionID == some sectionID) && f.title == fieldName)).head? with
  | none => rfl
  | some f => rfl

/-- Witness for C2 at concrete inputs: on itemA the password scoped to the staging
section is returned for that section filter, and an absent field title fails. -/
theorem c2_field_extractor_witness :
    FindSecret envA "prod" "db-creds" "password" "staging" = .ok ⟨"password", "xyz"⟩ ∧
    FindSecret envA "prod" "db-creds" "api-key" "staging" = .error .fieldNotFound := by
  constructor
  · rw [c2_field_extractor envA "token" ⟨"v1", "prod"⟩ ⟨"i1", "db-creds"⟩ itemA "s1"
      "prod" "db-creds" "password" "staging" rfl rfl rfl rfl rfl rfl]
    rfl
  · rw [c2_field_extractor envA "token" ⟨"v1", "prod"⟩ ⟨"i1", "db-creds"⟩ itemA "s1"
      "prod" "db-creds" "api-key" "staging" rfl rfl rfl rfl rfl rfl]
    rfl

/-- Claim C3: findSectionID returns the empty identifier with no error when the
requested title is empty; for a non-empty title it returns the identifier of the first
section whose title matches exactly, and ErrSectionNotFound when no section of the
item has that title. -/
theorem c3_find_section_id (item : Item) (sectionName : String) :
    (findSectionID item "" = .ok "") ∧
    (sectionName ≠ "" →
      findSectionID item sectionName =
        match (item.sections.filter (fun s => s.title == sectionName)).head? with
        | some s => .ok s.id
        | none => .error .sectionNotFound) := by
  constructor
  · rfl
  · intro h
    have hb : (sectionName == "") = false := beq_eq_false_iff_ne.mpr h
    unfold findSectionID
    rw [hb]
    simp only [Bool.false_eq_true, if_false]
    exact findSectionIDLoop_eq_filter sectionName item.sections

/-- Witness for C3 at concrete inputs: on itemA the rotation section resolves to its
identifier, a missing title fails, and the empty title resolves to the empty
identifier. -/
theorem c3_find_section_id_witness :
    findSectionID itemA "" = .ok "" ∧
    findSectionID itemA "rotation" = .ok "s2" ∧
    findSectionID itemA "nonexistent" = .error .sectionNotFound := by
  refine ⟨(c3_find_section_id itemA "rotation").1, ?_, ?_⟩
  · rw [(c3_find_section_id itemA "rotation").2 (by decide)]
    rfl
  · rw [(c3_find_section_id itemA "nonexistent").2 (by decide)]
    rfl

section RotationLemmas

/-- Unfolding occ over a cons cell. -/
theorem occ_cons (sectionID t : String) (f : ItemField) (rest : List ItemField) :
    occ sectionID t (f :: rest) =
      if f.sectionID = some sectionID ∧ f.title = t then f :: occ sectionID t rest
      else occ sectionID t rest := by
  simp [occ, List.filter_cons]

/-- The scan switch stores an expires-on field's value into ExpiresOn. -/
theorem rotStep_ExpiresOn_eq (acc : SecretRotationSpecs) (f : ItemField)
    (h : f.title = "expires-on") : (rotStep acc f).ExpiresOn = f.value := by
  unfold rotStep
  rw [h, if_pos (by decide)]

/-- The scan switch leaves ExpiresOn unchanged for any other title. -/
theorem rotStep_ExpiresOn_ne (acc : SecretRotationSpecs) (f : ItemField)
    (h : f.title ≠ "expires-on") : (rotStep acc f).ExpiresOn = acc.ExpiresOn := by
  unfold rotStep
  split_ifs with h1 h2 h3
  · exact absurd (by simpa using h1) h
  · rfl
  · rfl
  · rfl

/-- The scan switch stores a created-on field's value into CreatedOn. -/
theorem rotStep_CreatedOn_eq (acc : SecretRotationSpecs) (f : ItemField)
    (h : f.title = "created-on") : (rotStep acc f).CreatedOn = f.value := by
  unfold rotStep
  rw [h, if_neg (by decide), if_pos (by decide)]

/-- The scan switch leaves CreatedOn unchanged for any other title. -/
theorem rotStep_CreatedOn_ne (acc : SecretRotationSpecs) (f : ItemField)
    (h : f.title ≠ "created-on") : (rotStep acc f).CreatedOn = acc.CreatedOn := by
  unfold rotStep
  split_ifs with h1 h2 h3
  · rfl
  · exact absurd (by simpa using h2) h
  · rfl
  · rfl

/-- The scan switch stores a rotationFunction field's value into RotationFunction. -/
theorem rotStep_RotationFunction_eq (acc : SecretRotationSpecs) (f : ItemField)
    (h : f.title = "rotationFunction") : (rotStep acc f).RotationFunction = f.value := by
  unfold rotStep
  rw [h, if_neg (by decide), if_neg (by decide), if_pos (by decide)]

/-- The scan switch leaves RotationFunction unchanged for any other title. -/
theorem rotStep_RotationFunction_ne (acc : SecretRotationSpecs) (f : ItemField)
    (h : f.title ≠ "rotationFunction") :
    (rotStep acc f).RotationFunction = acc.RotationFunction := by
  unfold rotStep
  split_ifs with h1 h2 h3
  · rfl
  · rfl
  · exact absurd (by simpa using h3) h
  · rfl

/-- The break condition holds exactly when all three attributes are non-empty. -/
theorem rotComplete_iff (acc : SecretRotationSpecs) :
    rotComplete acc = true ↔
      acc.ExpiresOn ≠ "" ∧ acc.CreatedOn ≠ "" ∧ acc.RotationFunction ≠ "" := by
  simp [rotComplete, Bool.and_eq_true, bne_iff_ne, and_assoc]

/-- An accumulator that satisfies all three scan invariants and the break condition
is exactly the designated record. -/
theorem rotInv_complete (sectionID e c r : String) (acc : SecretRotationSpecs)
    (l : List ItemField)
    (hE : RotInv sectionID "expires-on" e (fun a => a.ExpiresOn) acc l)
    (hC : RotInv sectionID "created-on" c (fun a => a.CreatedOn) acc l)
    (hR : RotInv sectionID "rotationFunction" r (fun a => a.RotationFunction) acc l)
    (hcomp : rotComplete acc = true) :
    acc = ⟨e, c, r⟩ := by
  obtain ⟨h1, h2, h3⟩ := (rotComplete_iff acc).mp hcomp
  rcases hE with ⟨he, -⟩ | ⟨he, -⟩
  · rcases hC with ⟨hc, -⟩ | ⟨hc, -⟩
    · rcases hR with ⟨hr, -⟩ | ⟨hr, -⟩
      · cases acc
        simp_all
      · exact absurd hr h3
    · exact absurd hc h2
  · exact absurd he h1

/-- One loop iteration of the rotation scan preserves a component invariant: the
hypotheses say how the switch acts on the component read by g for a matching and a
non-matching title. -/
theorem rotInv_step (sectionID t v : String) (g : SecretRotationSpecs → String)
    (f : ItemField) (rest : List ItemField) (acc : SecretRotationSpecs) (s : String)
    (hfs : f.sectionID = some s)
    (hg1 : f.title = t → g (rotStep acc f) = f.value)
    (hg2 : f.title ≠ t → g (rotStep acc f) = g acc)
    (hinv : RotInv sectionID t v g acc (f :: rest)) :
    RotInv sectionID t v g (if s == sectionID then rotStep acc f else acc) rest := by
  simp only [RotInv] at hinv ⊢
  by_cases hsec : s = sectionID
  · subst hsec
    rw [if_pos (by simp)]
    by_cases ht : f.title = t
    · rw [occ_cons, if_pos ⟨hfs, ht⟩] at hinv
      rcases hinv with ⟨-, hocc⟩ | ⟨-, f', hocc, hfv⟩
      · exact absurd hocc (by simp)
      · injection hocc with hf hrest
        refine Or.inl ⟨?_, hrest⟩
        rw [hg1 ht, hf, hfv]
    · rw [occ_cons, if_neg (fun hcnd => ht hcnd.2)] at hinv
      rcases hinv with ⟨hga, hocc⟩ | ⟨hga, f', hocc, hfv⟩
      · exact Or.inl ⟨by rw [hg2 ht, hga], hocc⟩
      · exact Or.inr ⟨by rw [hg2 ht, hga], f', hocc, hfv⟩
  · rw [if_neg (by simpa using hsec)]
    rw [occ_cons, if_neg (fun hcnd => hsec (by simpa [hfs] using hcnd.1))] at hinv
    exact hinv

/-- The rotation scan on an item whose fields all carry section references, when for
each of the three required titles the invariant designates its value, terminates with
exactly the designated record — the break at main.go:160-162 can only fire once the
record is the designated one. -/
theorem rotScan_complete (sectionID e c r : String) (l : List ItemField) :
    ∀ acc : SecretRotationSpecs,
    (∀ f ∈ l, f.sectionID ≠ none) →
    RotInv sectionID "expires-on" e (fun a => a.ExpiresOn) acc l →
    RotInv sectionID "created-on" c (fun a => a.CreatedOn) acc l →
    RotInv sectionID "rotationFunction" r (fun a => a.RotationFunction) acc l →
    rotScan sectionID acc l = .ok ⟨e, c, r⟩ := by
  induction l with
  | nil =>
    intro acc _ hE hC hR
    have he : acc.ExpiresOn = e := by
      rcases hE with ⟨h, -⟩ | ⟨-, f, hocc, -⟩
      · exact h
      · exact absurd hocc (by simp [occ])
    have hc : acc.CreatedOn = c := by
      rcases hC with ⟨h, -⟩ | ⟨-, f, hocc, -⟩
      · exact h
      · exact absurd hocc (by simp [occ])
    have hr : acc.RotationFunction = r := by
      rcases hR with ⟨h, -⟩ | ⟨-, f, hocc, -⟩
      · exact h
      · exact absurd hocc (by simp [occ])
    have hacc : acc = ⟨e, c, r⟩ := by
      cases acc
      simp_all
    rw [hacc]
    rfl
  | cons f rest ih =>
    intro acc hall hE hC hR
    obtain ⟨s, hfs⟩ : ∃ s, f.sectionID = some s := by
      cases hfo : f.sectionID with
      | none => exact absurd hfo (hall f (by simp))
      | some s => exact ⟨s, rfl⟩
    have hE' := rotInv_step sectionID "expires-on" e (fun a => a.ExpiresOn) f rest acc s hfs
      (rotStep_ExpiresOn_eq acc f) (rotStep_ExpiresOn_ne acc f) hE
    have hC' := rotInv_step sectionID "created-on" c (fun a => a.CreatedOn) f rest acc s hfs
      (rotStep_CreatedOn_eq acc f) (rotStep_CreatedOn_ne acc f) hC
    have hR' := rotInv_step sectionID "rotationFunction" r (fun a => a.RotationFunction)
      f rest acc s hfs
      (rotStep_RotationFunction_eq acc f) (rotStep_RotationFunction_ne acc f) hR
    simp only [rotScan, hfs]
    by_cases hcomp : rotComplete (if s == sectionID then rotStep acc f else acc) = true
    · rw [if_pos hcomp, rotInv_complete sectionID e c r _ rest hE' hC' hR' hcomp]
    · rw [if_neg hcomp]
      exact ih _ (fun x hx => hall x (List.mem_cons_of_mem f hx)) hE' hC' hR'

/-- The rotation scan on an item whose fields all carry section references, when the
section holds no field with title t, terminates normally with the t-component of the
record still unset. -/
theorem rotScan_missing (sectionID t : String) (g : SecretRotationSpecs → String)
    (hg2 : ∀ acc f, f.title ≠ t → g (rotStep acc f) = g acc)
    (hcg : ∀ acc, rotComplete acc = true → g acc ≠ "")
    (l : List ItemField) :
    ∀ acc : SecretRotationSpecs,
    (∀ f ∈ l, f.sectionID ≠ none) →
    occ sectionID t l = [] → g acc = "" →
    ∃ acc', rotScan sectionID acc l = .ok acc' ∧ g acc' = "" := by
  induction l with
  | nil =>
    intro acc _ _ hg
    exact ⟨acc, rfl, hg⟩
  | cons f rest ih =>
    intro acc hall hocc hg
    obtain ⟨s, hfs⟩ : ∃ s, f.sectionID = some s := by
      cases hfo : f.sectionID with
      | none => exact absurd hfo (hall f (by simp))
      | some s => exact ⟨s, rfl⟩
    rw [occ_cons] at hocc
    by_cases hcnd : f.sectionID = some sectionID ∧ f.title = t
    · rw [if_pos hcnd] at hocc
      exact absurd hocc (by simp)
    · rw [if_neg hcnd] at hocc
      have hacc' : g (if s == sectionID then rotStep acc f else acc) = "" := by
        by_cases hs : s = sectionID
        · subst hs
          rw [if_pos (by simp)]
          have ht : f.title ≠ t := fun ht => hcnd ⟨hfs, ht⟩
          rw [hg2 acc f ht, hg]
        · rw [if_neg (by simpa using hs)]
          exact hg
      have hcomp : ¬rotComplete (if s == sectionID then rotStep acc f else acc) = true :=
        fun hcp => (hcg _ hcp) hacc'
      simp only [rotScan, hfs]
      rw [if_neg hcomp]
      exact ih _ (fun x hx => hall x (List.mem_cons_of_mem f hx)) hocc hacc'

end RotationLemmas

/-- Claim C4: on a fully loaded item whose fields all carry section references and
whose resolved section holds exactly one field for each of the three titles
expires-on, created-on and rotationFunction, all with non-empty values,
FindSecretRotationSpecs returns the serialized record holding exactly those three
values; and whenever one of the three titles is absent from the section, it fails
with ErrRotationSpecNotFound and returns no partial record. -/
theorem c4_rotation_specs (env : Env) (pt : String) (vault : VaultOverview)
    (itemOverview : ItemOverview) (item : Item) (sectionID : String)
    (vaultName itemName sectionName e c r : String)
    (h1 : env.plaintext = .ok pt) (h2 : env.newClient = .ok ())
    (h3 : findVault env.vaultsList vaultName = .ok vault)
    (h4 : findItem (env.itemsList vault.id) itemName = .ok itemOverview)
    (h5 : env.getItem vault.id itemOverview.id = .ok item)
    (h6 : findSectionID item sectionName = .ok sectionID)
    (hall : ∀ f ∈ item.fields, f.sectionID ≠ none) :
    ((∃ fe, occ sectionID "expires-on" item.fields = [fe] ∧ fe.value = e) →
     (∃ fc, occ sectionID "created-on" item.fields = [fc] ∧ fc.value = c) →
     (∃ fr, occ sectionID "rotationFunction" item.fields = [fr] ∧ fr.value = r) →
     e ≠ "" → c ≠ "" → r ≠ "" →
     FindSecretRotationSpecs env vaultName itemName sectionName =
       .ok ⟨"rotationSpecs", marshalRotationSpecs ⟨e, c, r⟩⟩) ∧
    ((occ sectionID "expires-on" item.fields = [] ∨
      occ sectionID "created-on" item.fields = [] ∨
      occ sectionID "rotationFunction" item.fields = []) →
     FindSecretRotationSpecs env vaultName itemName sectionName =
       .error .rotationSpecNotFound) := by
  have hred : FindSecretRotationSpecs env vaultName itemName sectionName =
      rotationExtract item sectionName := by
    simp only [FindSecretRotationSpecs, h1, h2, h3, h4, h5]
  constructor
  · intro hfe hfc hfr he hc hr
    obtain ⟨fe, hoe, hve⟩ := hfe
    obtain ⟨fcf, hoc, hvc⟩ := hfc
    obtain ⟨frf, hor, hvr⟩ := hfr
    have hscan : rotScan sectionID ⟨"", "", ""⟩ item.fields = .ok ⟨e, c, r⟩ :=
      rotScan_complete sectionID e c r item.fields ⟨"", "", ""⟩ hall
        (Or.inr ⟨rfl, fe, hoe, hve⟩) (Or.inr ⟨rfl, fcf, hoc, hvc⟩)
        (Or.inr ⟨rfl, frf, hor, hvr⟩)
    rw [hred]
    simp only [rotationExtract, h6, hscan]
    rw [if_neg (by simp [he, hc, hr])]
  · intro hmiss
    rw [hred]
    rcases hmiss with hm | hm | hm
    · obtain ⟨acc', hscan, hempty⟩ :=
        rotScan_missing sectionID "expires-on" (fun a => a.ExpiresOn)
          (fun acc f ht => rotStep_ExpiresOn_ne acc f ht)
          (fun acc hcp => ((rotComplete_iff acc).mp hcp).1)
          item.fields ⟨"", "", ""⟩ hall hm rfl
      simp only [rotationExtract, h6, hscan]
      rw [if_pos (by simp [hempty])]
    · obtain ⟨acc', hscan, hempty⟩ :=
        rotScan_missing sectionID "created-on" (fun a => a.CreatedOn)
          (fun acc f ht => rotStep_CreatedOn_ne acc f ht)
          (fun acc hcp => ((rotComplete_iff acc).mp hcp).2.1)
          item.fields ⟨"", "", ""⟩ hall hm rfl
      simp only [rotationExtract, h6, hscan]
      rw [if_pos (by simp [hempty])]
    · obtain ⟨acc', hscan, hempty⟩ :=
        rotScan_missing sectionID "rotationFunction" (fun a => a.RotationFunction)
          (fun acc f ht => rotStep_RotationFunction_ne acc f ht)
          (fun acc hcp => ((rotComplete_iff acc).mp hcp).2.2)
          item.fields ⟨"", "", ""⟩ hall hm rfl
      simp only [rotationExtract, h6, hscan]
      rw [if_pos (by simp [hempty])]

/-- Witness for C4 at concrete inputs: itemA's rotation section yields the serialized
record of its three values, itemB (no expires-on field) fails with
ErrRotationSpecNotFound. -/
theorem c4_rotation_specs_witness :
    FindSecretRotationSpecs envA "prod" "db-creds" "rotation" =
      .ok ⟨"rotationSpecs",
        marshalRotationSpecs ⟨"2025-01-01", "2024-01-01", "rotateDbPassword"⟩⟩ ∧
    FindSecretRotationSpecs envB "prod" "db-creds" "rotation" =
      .error .rotationSpecNotFound := by
  constructor
  · exact (c4_rotation_specs envA "token" ⟨"v1", "prod"⟩ ⟨"i1", "db-creds"⟩ itemA "s2"
      "prod" "db-creds" "rotation" "2025-01-01" "2024-01-01" "rotateDbPassword"
      rfl rfl rfl rfl rfl rfl (by decide)).1
      ⟨⟨"expires-on", "2025-01-01", some "s2"⟩, by decide, rfl⟩
      ⟨⟨"created-on", "2024-01-01", some "s2"⟩, by decide, rfl⟩
      ⟨⟨"rotationFunction", "rotateDbPassword", some "s2"⟩, by decide, rfl⟩
      (by decide) (by decide) (by decide)
  · exact (c4_rotation_specs envB "token" ⟨"v1", "prod"⟩ ⟨"i1", "db-creds"⟩ itemB "s2"
      "prod" "db-creds" "rotation" "" "" "" rfl rfl rfl rfl rfl rfl (by decide)).2
      (Or.inl (by decide))

section ErrorShapeLemmas

/-- The vault retrieval loop can only fail with ErrVaultNotFound or a provider
error, never with ErrSectionNotFound. -/
theorem findVaultLoop_ne_sectionNotFound (vaultName : String) (l : List VaultOverview)
    (t : Option String) :
    findVaultLoop vaultName l t ≠ .error .sectionNotFound := by
  rw [findVaultLoop_eq_filter]
  cases (l.filter (fun v => v.title == vaultName)).head? with
  | some v => simp
  | none => cases t <;> simp

/-- findVault can only fail with ErrVaultNotFound or a provider error. -/
theorem findVault_ne_sectionNotFound (vaults : Except String (IterStream VaultOverview))
    (vaultName : String) :
    findVault vaults vaultName ≠ .error .sectionNotFound := by
  cases vaults with
  | error e => simp [findVault]
  | ok st => exact findVaultLoop_ne_sectionNotFound vaultName st.elems st.term

/-- The item retrieval loop can only fail with ErrItemNotFound or a provider error. -/
theorem findItemLoop_ne_sectionNotFound (itemName : String) (l : List ItemOverview)
    (t : Option String) :
    findItemLoop itemName l t ≠ .error .sectionNotFound := by
  rw [findItemLoop_eq_filter]
  cases (l.filter (fun i => i.title == itemName)).head? with
  | some i => simp
  | none => cases t <;> simp

/-- findItem can only fail with ErrItemNotFound or a provider error. -/
theorem findItem_ne_sectionNotFound (items : Except String (IterStream ItemOverview))
    (itemName : String) :
    findItem items itemName ≠ .error .sectionNotFound := by
  cases items with
  | error e => simp [findItem]
  | ok st => exact findItemLoop_ne_sectionNotFound itemName st.elems st.term

/-- The rotation scan itself never produces a returned error value: it either
terminates normally or faults on a nil section reference. -/
theorem rotScan_no_error (sectionID : String) (l : List ItemField) :
    ∀ (acc : SecretRotationSpecs) (e : OPError), rotScan sectionID acc l ≠ .error e := by
  induction l with
  | nil =>
    intro acc e
    simp [rotScan]
  | cons f rest ih =>
    intro acc e
    cases hfs : f.sectionID with
    | none => simp [rotScan, hfs]
    | some s =>
      simp only [rotScan, hfs]
      by_cases hcomp : rotComplete (if s == sectionID then rotStep acc f else acc) = true
      · rw [if_pos hcomp]
        simp
      · rw [if_neg hcomp]
        exact ih _ e

/-- The rotation extraction with the empty section title never fails with
ErrSectionNotFound: findSectionID short-circuits to the empty identifier. -/
theorem rotationExtract_empty_ne_sectionNotFound (item : Item) :
    rotationExtract item "" ≠ .error .sectionNotFound := by
  have h0 : findSectionID item "" = .ok "" := rfl
  cases hs : rotScan "" ⟨"", "", ""⟩ item.fields with
  | error e => exact absurd hs (rotScan_no_error "" item.fields _ e)
  | fault k => simp [rotationExtract, h0, hs]
  | ok ri =>
    simp only [rotationExtract, h0, hs]
    split_ifs <;> simp

end ErrorShapeLemmas

/-- Claim C5 as amended: calling FindSecretRotationSpecs with the empty string as the
required section title never fails with ErrSectionNotFound — findSectionID treats the
empty title as the no-filter sentinel in the rotation flow exactly as in the field
lookup flow, returning the empty identifier with no error, and every other step of the
flow produces a different error kind. -/
theorem c5_empty_section_never_section_not_found (env : Env) (vaultName itemName : String) :
    FindSecretRotationSpecs env vaultName itemName "" ≠ .error .sectionNotFound := by
  cases hp : env.plaintext with
  | error m => simp [FindSecretRotationSpecs, hp]
  | ok pt =>
    cases hc : env.newClient with
    | error m => simp [FindSecretRotationSpecs, hp, hc]
    | ok u =>
      cases hv : findVault env.vaultsList vaultName with
      | error e =>
        have h := findVault_ne_sectionNotFound env.vaultsList vaultName
        rw [hv] at h
        simp only [FindSecretRotationSpecs, hp, hc, hv]
        simpa using h
      | ok vault =>
        cases hi : findItem (env.itemsList vault.id) itemName with
        | error e =>
          have h := findItem_ne_sectionNotFound (env.itemsList vault.id) itemName
          rw [hi] at h
          simp only [FindSecretRotationSpecs, hp, hc, hv, hi]
          simpa using h
        | ok itemOverview =>
          simp only [FindSecretRotationSpecs, hp, hc, hv, hi]
          exact rotationExtract_empty_ne_sectionNotFound _

/-- Claim C5 counterexample: on a healthy provider world whose item even holds a
section titled rotation, the empty required section title does not make
FindSecretRotationSpecs fail with ErrSectionNotFound — the flow reaches the scan and
fails with ErrRotationSpecNotFound instead. -/
theorem c5_counterexample :
    FindSecretRotationSpecs envA "prod" "db-creds" "" = .error .rotationSpecNotFound := rfl

/-- Witness for C5's amended statement at a concrete input. -/
theorem c5_empty_section_witness :
    FindSecretRotationSpecs envB "dev" "missing-item" "" ≠ .error .sectionNotFound :=
  c5_empty_section_never_section_not_found envB "dev" "missing-item"

/-- The rotation scan terminates normally on any field list whose fields all carry
section references, whatever the accumulator state. -/
theorem rotScan_total (sectionID : String) (l : List ItemField) :
    ∀ acc : SecretRotationSpecs, (∀ f ∈ l, f.sectionID ≠ none) →
    ∃ res, rotScan sectionID acc l = .ok res := by
  induction l with
  | nil =>
    intro acc _
    exact ⟨acc, rfl⟩
  | cons f rest ih =>
    intro acc hall
    obtain ⟨s, hfs⟩ : ∃ s, f.sectionID = some s := by
      cases hfo : f.sectionID with
      | none => exact absurd hfo (hall f (by simp))
      | some s => exact ⟨s, rfl⟩
    simp only [rotScan, hfs]
    by_cases hcomp : rotComplete (if s == sectionID then rotStep acc f else acc) = true
    · rw [if_pos hcomp]
      exact ⟨_, rfl⟩
    · rw [if_neg hcomp]
      exact ih _ (fun x hx => hall x (List.mem_cons_of_mem f hx))

/-- Claim C6: the rotation scan's section-membership check dereferences the field's
section reference without a nil guard — unlike the guarded check of the field
extractor: when the scan reaches a field carrying no section reference (the head of
the fields still to be scanned), it faults regardless of the accumulator state;
whereas under the precondition that every field carries a section reference the fault
branch is unreachable and the scan terminates normally. -/
theorem c6_rotation_scan_nil_deref (sectionID : String) (acc : SecretRotationSpecs)
    (f : ItemField) (rest l : List ItemField) :
    (f.sectionID = none → rotScan sectionID acc (f :: rest) = .fault .nilSectionRef) ∧
    ((∀ g ∈ l, g.sectionID ≠ none) → ∃ res, rotScan sectionID acc l = .ok res) := by
  constructor
  · intro h
    simp [rotScan, h]
  · exact rotScan_total sectionID l acc

/-- Witness for C6 at concrete inputs: a field with no section reference faults the
scan, while itemA's fields all carry references and the scan terminates normally. -/
theorem c6_rotation_scan_nil_deref_witness :
    rotScan "s2" ⟨"", "", ""⟩ [⟨"note", "x", none⟩] = .fault .nilSectionRef ∧
    ∃ res, rotScan "s2" ⟨"", "", ""⟩ itemA.fields = .ok res :=
  ⟨(c6_rotation_scan_nil_deref "s2" ⟨"", "", ""⟩ ⟨"note", "x", none⟩ [] itemA.fields).1 rfl,
   (c6_rotation_scan_nil_deref "s2" ⟨"", "", ""⟩ ⟨"note", "x", none⟩ [] itemA.fields).2
     (by decide)⟩

/-- Claim C7 fails on the code (code bug): the error of the full-item load is
discarded, not surfaced.  In envC7 every step up to client.Items.Get succeeds and Get
fails with a transport error; FindSecret does not return that provider error —
resolution continues on the zero-value item and ends in ErrFieldNotFound, and
FindSecretRotationSpecs likewise ends in ErrSectionNotFound.  In the Go source the
`err` of line 78 (and line 136) is reassigned at the next call without ever being
checked, while every neighbouring provider call checks its error — a slip
contradicting the stated propagation policy. -/
theorem c7_get_item_error_discarded :
    envC7.getItem "v1" "i1" = .error "transport: connection reset" ∧
    FindSecret envC7 "prod" "db-creds" "password" "" = .error .fieldNotFound ∧
    FindSecretRotationSpecs envC7 "prod" "db-creds" "rotation" = .error .sectionNotFound :=
  ⟨rfl, rfl, rfl⟩

/-- Claim C8 as amended: in PutSecret, once the vault is resolved, an item lookup
failing with ErrItemNotFound triggers exactly one create request, carrying the given
title but no vault identifier (VaultID keeps Go's zero value instead of the resolved
vault's id); when the create succeeds the flow returns success with the created
handle discarded; an item lookup failing with any other error propagates unchanged to
the caller and no create request is issued. -/
theorem c8_put_secret_flow (env : Env) (pt : String) (vault : VaultOverview)
    (vaultName itemName fieldName value : String)
    (h1 : env.plaintext = .ok pt) (h2 : env.newClient = .ok ())
    (h3 : findVault env.vaultsList vaultName = .ok vault) :
    (findItem (env.itemsList vault.id) itemName = .error .itemNotFound →
      ∀ created, env.createItem ⟨"", itemName⟩ = .ok created →
      PutSecret env vaultName itemName fieldName value = (.ok (), [⟨"", itemName⟩])) ∧
    (∀ e, findItem (env.itemsList vault.id) itemName = .error e → e ≠ .itemNotFound →
      PutSecret env vaultName itemName fieldName value = (.error e, [])) := by
  constructor
  · intro hfi created hcr
    simp only [PutSecret, h1, h2, h3, hfi, hcr]
  · intro e hfi hne
    cases e with
    | itemNotFound => exact absurd rfl hne
    | vaultNotFound => simp only [PutSecret, h1, h2, h3, hfi]
    | fieldNotFound => simp only [PutSecret, h1, h2, h3, hfi]
    | sectionNotFound => simp only [PutSecret, h1, h2, h3, hfi]
    | rotationSpecNotFound => simp only [PutSecret, h1, h2, h3, hfi]
    | provider msg => simp only [PutSecret, h1, h2, h3, hfi]

/-- Claim C8 counterexample: the create request issued for a missing item does not
name the resolved vault — its VaultID is the empty string although the vault that was
resolved has id v1, so the new item is not requested "in that vault". -/
theorem c8_counterexample :
    PutSecret envC8 "prod" "new-item" "password" "xyz" =
      (.ok (), [{ vaultID := "", title := "new-item" }]) ∧
    findVault envC8.vaultsList "prod" = .ok ⟨"v1", "prod"⟩ :=
  ⟨rfl, rfl⟩

/-- Witness for C8's amended statement at concrete inputs: both the create path and
the propagation path. -/
theorem c8_put_secret_flow_witness :
    PutSecret envC8 "prod" "other-item" "field" "val" = (.ok (), [⟨"", "other-item"⟩]) ∧
    PutSecret envA "prod" "db-creds" "field" "val" = (.ok (), []) := by
  constructor
  · exact (c8_put_secret_flow envC8 "token" ⟨"v1", "prod"⟩ "prod" "other-item" "field" "val"
      rfl rfl rfl).1 rfl ⟨"i9", "new-item"⟩ rfl
  · rfl

/-- Claim C9: rotation-spec extraction — section resolution, field scan and record
serialization — is a pure function of the loaded item snapshot and section name, so
two runs on the same snapshot produce the same outcome: byte-identical serialized
output on success and the same error kind on failure; and the whole
FindSecretRotationSpecs operation is likewise deterministic against a fixed provider
world. -/
theorem c9_rotation_extract_deterministic (item : Item) (sectionName : String)
    (env : Env) (vaultName itemName : String) (r₁ r₂ w₁ w₂ : GoResult DSecret)
    (h1 : rotationExtract item sectionName = r₁)
    (h2 : rotationExtract item sectionName = r₂)
    (h3 : FindSecretRotationSpecs env vaultName itemName sectionName = w₁)
    (h4 : FindSecretRotationSpecs env vaultName itemName sectionName = w₂) :
    r₁ = r₂ ∧ w₁ = w₂ :=
  ⟨h1.symm.trans h2, h3.symm.trans h4⟩

/-- Witness for C9 at concrete inputs: two runs on itemA's rotation section agree on
the serialized record, and two runs of the whole operation on envB agree on the error
kind. -/
theorem c9_rotation_extract_deterministic_witness :
    (GoResult.ok ⟨"rotationSpecs",
        marshalRotationSpecs ⟨"2025-01-01", "2024-01-01", "rotateDbPassword"⟩⟩ : GoResult DSecret) =
      .ok ⟨"rotationSpecs", marshalRotationSpecs ⟨"2025-01-01", "2024-01-01", "rotateDbPassword"⟩⟩ ∧
    (GoResult.error .rotationSpecNotFound : GoResult DSecret) = .error .rotationSpecNotFound :=
  c9_rotation_extract_deterministic itemA "rotation" envB "prod" "db-creds"
    _ _ _ _ rfl rfl rfl rfl

/-- Claim C10 as amended: when decoding the provided credential to plaintext fails,
each of FindSecret, FindSecretRotationSpecs and PutSecret aborts unrecoverably via
panic instead of returning a typed error value; this is however not the only
lookup-path failure handled by abort — a client construction failure is panicked in
exactly the same way in all three operations. -/
theorem c10_abort_on_credential_and_client (env : Env)
    (vaultName itemName fieldName sectionName value msg : String) :
    (env.plaintext = .error msg →
      FindSecret env vaultName itemName fieldName sectionName = .fault .credentialDecode ∧
      FindSecretRotationSpecs env vaultName itemName sectionName = .fault .credentialDecode ∧
      (PutSecret env vaultName itemName fieldName value).1 = .fault .credentialDecode) ∧
    (∀ pt, env.plaintext = .ok pt → env.newClient = .error msg →
      FindSecret env vaultName itemName fieldName sectionName = .fault .clientConstruct ∧
      FindSecretRotationSpecs env vaultName itemName sectionName = .fault .clientConstruct ∧
      (PutSecret env vaultName itemName fieldName value).1 = .fault .clientConstruct) := by
  constructor
  · intro h
    refine ⟨?_, ?_, ?_⟩
    · simp only [FindSecret, h]
    · simp only [FindSecretRotationSpecs, h]
    · simp [PutSecret, h]
  · intro pt hp hc
    refine ⟨?_, ?_, ?_⟩
    · simp only [FindSecret, hp, hc]
    · simp only [FindSecretRotationSpecs, hp, hc]
    · simp [PutSecret, hp, hc]

/-- Claim C10 counterexample: with a credential that decodes fine but a failing client
construction, FindSecret aborts instead of returning a typed error — so
credential-decoding failure is not the only lookup-path failure handled by abort. -/
theorem c10_counterexample :
    envBadClient.plaintext = .ok "token" ∧
    FindSecret envBadClient "prod" "db-creds" "password" "" = .fault .clientConstruct :=
  ⟨rfl, rfl⟩

/-- Witness for C10's amended statement at concrete inputs. -/
theorem c10_abort_witness :
    FindSecretRotationSpecs envBadCred "prod" "db-creds" "rotation" = .fault .credentialDecode ∧
    (PutSecret envBadClient "prod" "db-creds" "password" "xyz").1 = .fault .clientConstruct :=
  ⟨((c10_abort_on_credential_and_client envBadCred "prod" "db-creds" "password" "rotation"
      "xyz" "cannot read secret plaintext").1 rfl).2.1,
   ((c10_abort_on_credential_and_client envBadClient "prod" "db-creds" "password" "rotation"
      "xyz" "invalid service account token").2 "token" rfl rfl).2.2⟩

end Daggerverse
